import Mathlib

/-!
Shallow embedding of the URL-shortener backend core: short-code allocation,
redirect resolution, click classification, and analytics aggregation,
translated from the TypeScript sources (links router, redirect router,
analysis router, analysisService, logging middleware).

JavaScript string primitives (trim, toLowerCase, toUpperCase, split on a
one-character separator, substring test) are modelled structurally over
List Char so that all definitions reduce in the kernel.
-/

namespace UrlShortener

/-- JavaScript String.prototype.toLowerCase, restricted to ASCII case
mapping (all inputs appearing in this code base are ASCII). -/
def jsToLower (s : String) : String :=
  String.mk (s.toList.map Char.toLower)

/-- JavaScript String.prototype.toUpperCase, restricted to ASCII case
mapping. -/
def jsToUpper (s : String) : String :=
  String.mk (s.toList.map Char.toUpper)

/-- JavaScript String.prototype.trim: remove leading and trailing
whitespace. -/
def jsTrim (s : String) : String :=
  String.mk (((s.toList.dropWhile Char.isWhitespace).reverse.dropWhile
    Char.isWhitespace).reverse)

/-- Split a character list on a one-character separator, with JavaScript
split semantics: the result always has one more piece than the number of
separator occurrences, so the empty input yields one empty piece. -/
def splitOnChar (sep : Char) : List Char → List (List Char)
  | [] => [[]]
  | c :: cs =>
    let rest := splitOnChar sep cs
    if c = sep then [] :: rest
    else
      match rest with
      | [] => [[c]]
      | r :: rs => (c :: r) :: rs

/-- JavaScript String.prototype.split with a one-character separator. -/
def jsSplit (s : String) (sep : Char) : List String :=
  (splitOnChar sep s.toList).map String.mk

/-- Whether the pattern is an initial segment of the haystack. -/
def startsWithChars : List Char → List Char → Bool
  | _, [] => true
  | [], _ :: _ => false
  | c :: cs, p :: ps => c = p && startsWithChars cs ps

/-- Whether the pattern occurs contiguously inside the haystack. -/
def containsChars : List Char → List Char → Bool
  | [], pat => startsWithChars [] pat
  | c :: cs, pat => startsWithChars (c :: cs) pat || containsChars cs pat

/-- Substring test, modelling a JavaScript regex of plain alternatives
such as tablet|ipad applied with .test(ua). -/
def hasSub (s pat : String) : Bool :=
  containsChars s.toList pat.toList

/-- A stored Link document, as written by the links router
(fields relevant to resolution and analytics). -/
structure Link where
  id : String
  shortCode : String
  longUrl : String
  isActive : Bool
  hitCount : Nat
deriving DecidableEq, Repr

/-- A stored ClickEvent document, as written by logClickEvent.
Optional fields model Firestore fields that may be absent.
Timestamps are modelled as integer epoch milliseconds. -/
structure ClickEvent where
  linkId : String
  timestamp : Option Int
  country : Option String
  deviceType : Option String
  source : Option String
deriving DecidableEq, Repr

/-- The Firestore query pattern used throughout the code:
collection.where(shortCode == code).limit(1).get() over the links
collection, returning the matched document if any. -/
def firestoreQuery (links : List Link) (code : String) : Option Link :=
  links.find? (fun l => l.shortCode == code)

/-- detectDeviceType from the redirect router: a missing (or falsy, i.e.
empty) user-agent yields desktop; otherwise the lowercased user-agent is
tested against tablet|ipad, then mobi|android|iphone. -/
def detectDeviceType (userAgent : Option String) : String :=
  match userAgent with
  | none => "desktop"
  | some s =>
    if s = "" then "desktop"
    else
      let ua := jsToLower s
      if hasSub ua "tablet" || hasSub ua "ipad" then "tablet"
      else if hasSub ua "mobi" || hasSub ua "android" || hasSub ua "iphone" then "mobile"
      else "desktop"

/-- detectCountry from the redirect router: a missing (or falsy, i.e.
empty) Accept-Language yields UNKNOWN; otherwise the first comma-separated
entry is split on the dash; exactly two parts return the second part
uppercased, any other shape returns the first part uppercased. -/
def detectCountry (acceptLanguage : Option String) : String :=
  match acceptLanguage with
  | none => "UNKNOWN"
  | some s =>
    if s = "" then "UNKNOWN"
    else
      let first := (jsSplit s ',').headD ""
      let parts := jsSplit first '-'
      if parts.length = 2 then jsToUpper (parts.getD 1 "")
      else jsToUpper (parts.headD "")

/-- The outcome of the redirect route for a given code: either a 302
redirect to the stored long URL, or the not-found page (the single shape
served both for a missing code and for an inactive link). -/
inductive RedirectResult where
  | NotFound
  | Found (longUrl : String)
deriving DecidableEq, Repr

/-- The decision the redirect route takes on a matched document:
inactive links are served the same not-found page as missing codes,
active links are redirected to their longUrl. -/
def linkDecision (l : Link) : RedirectResult :=
  if l.isActive then .Found l.longUrl else .NotFound

/-- The redirect route handler (router.get of the code parameter) on its
non-throwing path: originalCode is the trimmed route parameter, code is
its lowercasing; an empty code is served the not-found page with no store
read; otherwise the links collection is queried for code, and, when that
query is empty and originalCode differs from code, queried once more for
originalCode. The second component records the codes queried against the
store, in order. -/
def resolve (links : List Link) (rawCode : String) : RedirectResult × List String :=
  let originalCode := jsTrim rawCode
  let code := jsToLower originalCode
  if code = "" then (.NotFound, [])
  else
    match firestoreQuery links code with
    | some l => (linkDecision l, [code])
    | none =>
      if originalCode ≠ code then
        match firestoreQuery links originalCode with
        | some l => (linkDecision l, [code, originalCode])
        | none => (.NotFound, [code, originalCode])
      else (.NotFound, [code])

/-- The hit-count increment and click-event append dispatched by the
redirect route after the response is sent can each succeed or fail at the
store. -/
abbrev StoreResult := Except String Unit

/-- What becomes of a failure of one of the fire-and-forget side effects. -/
inductive EffectOutcome where
  | completed
  | failureCaughtAndLogged
  | failureUnhandled
deriving DecidableEq, Repr

/-- logClickEvent from the redirect router: the clickEvents append is
wrapped in try/catch and a failure is logged with console.warn and
swallowed. -/
def logClickEvent (appendResult : StoreResult) : EffectOutcome :=
  match appendResult with
  | .ok _ => .completed
  | .error _ => .failureCaughtAndLogged

/-- The two statements the redirect route runs after res.redirect: the
hit-count update promise is discarded with the void operator, with no
try/catch and no rejection handler attached, so its failure is neither
caught nor logged; the click event goes through logClickEvent. The
response status is the 302 already sent, which no side effect can change. -/
structure RedirectSideEffects where
  responseStatus : Nat
  incrementOutcome : EffectOutcome
  clickLogOutcome : EffectOutcome
deriving DecidableEq, Repr

/-- The side-effect phase of a successful redirect, as a function of how
the two store writes fare. -/
def dispatchSideEffects (incrementResult appendResult : StoreResult) :
    RedirectSideEffects where
  responseStatus := 302
  incrementOutcome :=
    match incrementResult with
    | .ok _ => .completed
    | .error _ => .failureUnhandled
  clickLogOutcome := logClickEvent appendResult

/-- The time-window filter from generateUrlAnalysis: applied only when at
least one bound was supplied; an event without a timestamp is dropped, an
event before the from bound or after the to bound is dropped (the window
is inclusive at both ends). -/
def filterByWindow (events : List ClickEvent) (fromD toD : Option Int) :
    List ClickEvent :=
  match fromD, toD with
  | none, none => events
  | _, _ =>
    events.filter fun evt =>
      match evt.timestamp with
      | none => false
      | some t =>
        (match fromD with | none => true | some f => decide (f ≤ t)) &&
        (match toD with | none => true | some g => decide (t ≤ g))

/-- The key JavaScript computes for a bucket: a missing or empty value is
bucketed as UNKNOWN (the countBy helper applies a truthiness fallback). -/
def bucketKey (v : Option String) : String :=
  match v with
  | none => "UNKNOWN"
  | some s => if s = "" then "UNKNOWN" else s

/-- Increment the count of one key in an insertion-ordered association
list, appending the key with count one when it is new (JavaScript Map
preserves insertion order). -/
def bumpCount : List (String × Nat) → String → List (String × Nat)
  | [], k => [(k, 1)]
  | (k', n) :: rest, k =>
    if k' = k then (k', n + 1) :: rest else (k', n) :: bumpCount rest k

/-- countBy from generateUrlAnalysis: fold the events into an
insertion-ordered multiset of bucket keys. -/
def countBy (events : List ClickEvent) (key : ClickEvent → Option String) :
    List (String × Nat) :=
  events.foldl (fun acc e => bumpCount acc (bucketKey (key e))) []

/-- UrlAnalysisStats from analysisService (timestamps as epoch
milliseconds, the period label reduced to whether a bound was given). -/
structure UrlAnalysisStats where
  urlId : String
  shortCode : String
  longUrl : String
  totalClicks : Nat
  filteredPeriod : Bool
  firstClick : Option Int
  lastClick : Option Int
  countries : List (String × Nat)
  devices : List (String × Nat)
  sources : List (String × Nat)
deriving DecidableEq, Repr

/-- generateUrlAnalysis from analysisService: lowercase and trim the
shortId, look the link up by exact shortCode match, throw when absent;
otherwise fetch the click events of the link (eventsOf models the
clickEvents store query by linkId, ordered by timestamp ascending), filter
them by the optional window, and aggregate. totalClicks falls back to the
persisted hitCount whenever the filtered event count is zero (the
JavaScript expression events.length or hitCount or 0). -/
def generateUrlAnalysis (links : List Link)
    (eventsOf : String → List ClickEvent) (shortId : String)
    (fromD toD : Option Int) : Except String UrlAnalysisStats :=
  let code := jsToLower (jsTrim shortId)
  match firestoreQuery links code with
  | none => .error ("Link with shortCode " ++ code ++ " not found")
  | some linkDoc =>
    let events := filterByWindow (eventsOf linkDoc.id) fromD toD
    .ok {
      urlId := linkDoc.id
      shortCode := linkDoc.shortCode
      longUrl := linkDoc.longUrl
      totalClicks := if events.length ≠ 0 then events.length else linkDoc.hitCount
      filteredPeriod := fromD.isSome || toD.isSome
      firstClick := events.head?.bind (fun e => e.timestamp)
      lastClick := events.getLast?.bind (fun e => e.timestamp)
      countries := countBy events (fun e => e.country)
      devices := countBy events (fun e => e.deviceType)
      sources := countBy events (fun e => e.source)
    }

/-- The HTTP outcome of the analysis summary route. -/
inductive AnalysisHttpOutcome where
  | success (shortId : String) (stats : UrlAnalysisStats)
  | errorStatus (status : Nat) (message : String)
deriving DecidableEq, Repr

/-- The analysis router handler (router.post of shortId/summary): a
successful service call is returned as the JSON payload; a thrown error is
passed to next, reaches the errorLogger middleware, which logs it and
forwards it unchanged, and ends at the Express default error handler,
which responds with status 500 for a plain Error (no middleware in the
code base maps the not-found error to 404). -/
def analysisSummaryRoute (links : List Link)
    (eventsOf : String → List ClickEvent) (shortId : String)
    (fromD toD : Option Int) : AnalysisHttpOutcome :=
  match generateUrlAnalysis links eventsOf shortId fromD toD with
  | .ok stats => .success shortId stats
  | .error msg => .errorStatus 500 msg

/-- The HTTP status the analysis summary route responds with. -/
def analysisStatus (o : AnalysisHttpOutcome) : Nat :=
  match o with
  | .success _ _ => 200
  | .errorStatus s _ => s

/-- The alphabet generateShortCode draws from. -/
def codeChars : List Char := "abcdefghijklmnopqrstuvwxyz0123456789".toList

/-- generateShortCode from the links router: draw len characters from the
36-character alphabet. Randomness is modelled by rnd, the stream of values
produced by the successive Math.floor(Math.random() times 36) calls, read
modulo 36 starting at index start. -/
def generateShortCode (rnd : Nat → Nat) (start len : Nat) : String :=
  String.mk ((List.range len).map fun i => codeChars.getD (rnd (start + i) % 36) 'a')

/-- The loop of generateUniqueShortCode, with fuel counting the attempts
still available out of maxAttempts = 10 (so the source attempt index is
10 - fuel). Each attempt draws a candidate at the current length and
queries the store; an empty query returns the candidate. On a collision
the length is incremented when at most two attempts remain after this one
(the source condition attempt greater or equal maxAttempts - 3, i.e.
fuel at most 2 here, applied after the draw). When the fuel runs out, the fallback draws one candidate at
the current length + 2 and returns it without querying the store. The
second component records the length drawn at each generation, the
fallback included. -/
def generateUniqueShortCodeAux (links : List Link) (rnd : Nat → Nat) :
    Nat → Nat → Nat → String × List Nat
  | 0, len, pos => (generateShortCode rnd pos (len + 2), [len + 2])
  | fuel + 1, len, pos =>
    let code := generateShortCode rnd pos len
    match firestoreQuery links code with
    | none => (code, [len])
    | some _ =>
      let len' := if fuel ≤ 2 then len + 1 else len
      let next := generateUniqueShortCodeAux links rnd fuel len' (pos + len)
      (next.1, len :: next.2)

/-- generateUniqueShortCode from the links router (maxAttempts = 10). -/
def generateUniqueShortCode (links : List Link) (rnd : Nat → Nat)
    (len : Nat) : String :=
  (generateUniqueShortCodeAux links rnd 10 len 0).1

/-- The lengths drawn over one run of generateUniqueShortCode, in order,
the fallback draw included when it happens. -/
def shortCodeLengthTrace (links : List Link) (rnd : Nat → Nat)
    (len : Nat) : List Nat :=
  (generateUniqueShortCodeAux links rnd 10 len 0).2

/-- The length trace a run produces when every attempt collides: each
attempt draws at the length current when it starts, the increment lands
after the draw on the last three attempts, and the fallback draws at the
final length + 2. -/
def expectedTrace : Nat → Nat → List Nat
  | 0, len => [len + 2]
  | fuel + 1, len =>
    len :: expectedTrace fuel (if fuel ≤ 2 then len + 1 else len)

/-- Total number of random draws consumed by the attempts (fallback
excluded) when every attempt collides. -/
def drawSum : Nat → Nat → Nat
  | 0, _ => 0
  | fuel + 1, len => len + drawSum fuel (if fuel ≤ 2 then len + 1 else len)

/-- The length variable left after all attempts collided. -/
def finalLen : Nat → Nat → Nat
  | 0, len => len
  | fuel + 1, len => finalLen fuel (if fuel ≤ 2 then len + 1 else len)

/-- A random stream that always returns the first alphabet character, so
every draw of length n yields the string of n letters a. -/
def rndZero : Nat → Nat := fun _ => 0

/-- A link fixture with a given short code. -/
def mkLink (code : String) : Link :=
  { id := "id-" ++ code, shortCode := code, longUrl := "https://example.com",
    isActive := true, hitCount := 0 }

/-- A store that collides with every candidate rndZero can draw during
the ten attempts (lengths 6, 7 and 8). -/
def collidingStore : List Link :=
  [mkLink "aaaaaa", mkLink "aaaaaaa", mkLink "aaaaaaaa"]

/-- The colliding store extended with the fallback candidate itself
(length 11), so even the fallback code is already taken. -/
def collidingStoreWithFallback : List Link :=
  mkLink "aaaaaaaaaaa" :: collidingStore

/-- Extract totalClicks from a service result. -/
def totalClicksOf (r : Except String UrlAnalysisStats) : Option Nat :=
  match r with
  | .ok s => some s.totalClicks
  | .error _ => none

/-- A link fixture with recorded click events, used to instantiate the
analytics theorems. -/
def analyticsLink : Link :=
  { id := "L1", shortCode := "abc", longUrl := "https://example.com",
    isActive := true, hitCount := 5 }

/-- The click events of analyticsLink: two events, at times 100 and 400,
so the window 200 to 300 lies strictly between all event timestamps. -/
def analyticsEvents : String → List ClickEvent :=
  fun lid =>
    if lid = "L1" then
      [{ linkId := "L1", timestamp := some 100, country := some "DE",
         deviceType := some "desktop", source := some "direct" },
       { linkId := "L1", timestamp := some 400, country := some "FR",
         deviceType := some "mobile", source := some "direct" }]
    else []

/-- A legacy link fixture: a positive persisted hit count and no click
events. -/
def legacyLink : Link :=
  { id := "L2", shortCode := "leg42x", longUrl := "https://example.org",
    isActive := true, hitCount := 7 }


/-- C9: for every user-agent string, device classification lowercases it
and returns tablet when it contains tablet or ipad, otherwise mobile when
it contains mobi, android or iphone, otherwise desktop; a missing
user-agent yields desktop. (The code also short-circuits the empty
string, which agrees with these rules, since the empty string contains
none of the patterns.) -/
theorem detectDeviceType_rules (s : String) :
    detectDeviceType none = "desktop" ∧
    detectDeviceType (some s) =
      (if hasSub (jsToLower s) "tablet" || hasSub (jsToLower s) "ipad" then "tablet"
       else if hasSub (jsToLower s) "mobi" || hasSub (jsToLower s) "android"
           || hasSub (jsToLower s) "iphone" then "mobile"
       else "desktop") := by
  refine ⟨rfl, ?_⟩
  by_cases h : s = ""
  · subst h; decide
  · simp [detectDeviceType, h]

/-- C8 counterexample: at the present-but-empty Accept-Language value,
the first comma entry splits into exactly one part, whose uppercasing is
the empty string, yet the code returns UNKNOWN — so the one-part rule of
the claim does not hold at the empty header value. -/
theorem detectCountry_empty_counterexample :
    detectCountry (some "") = "UNKNOWN"
    ∧ (jsSplit ((jsSplit "" ',').headD "") '-').length = 1
    ∧ jsToUpper ((jsSplit ((jsSplit "" ',').headD "") '-').headD "") = ""
    ∧ detectCountry (some "") ≠
        jsToUpper ((jsSplit ((jsSplit "" ',').headD "") '-').headD "") := by
  decide

/-- C8 amended: a missing or empty Accept-Language yields UNKNOWN; for
every non-empty header value the first comma-separated entry is split on
the dash, two parts return the second part uppercased, one part returns
that part uppercased; in particular de-DE,de;q=0.9 gives DE and fr gives
FR. -/
theorem detectCountry_rules (s : String) :
    detectCountry none = "UNKNOWN" ∧
    detectCountry (some "") = "UNKNOWN" ∧
    detectCountry (some "de-DE,de;q=0.9") = "DE" ∧
    detectCountry (some "fr") = "FR" ∧
    (s ≠ "" →
      ((jsSplit ((jsSplit s ',').headD "") '-').length = 2 →
        detectCountry (some s) =
          jsToUpper ((jsSplit ((jsSplit s ',').headD "") '-').getD 1 "")) ∧
      ((jsSplit ((jsSplit s ',').headD "") '-').length = 1 →
        detectCountry (some s) =
          jsToUpper ((jsSplit ((jsSplit s ',').headD "") '-').headD ""))) := by
  refine ⟨rfl, by decide, by decide, by decide, fun hs => ⟨fun hl => ?_, fun hl => ?_⟩⟩
  · simp at hl
    simp [detectCountry, hs, hl]
  · simp at hl
    simp [detectCountry, hs, hl]

/-- C8 witness: the two-part rule instantiated at the German header. -/
theorem detectCountry_rules_witness :
    detectCountry (some "de-DE,de;q=0.9") =
      jsToUpper ((jsSplit ((jsSplit "de-DE,de;q=0.9" ',').headD "") '-').getD 1 "") :=
  ((detectCountry_rules "de-DE,de;q=0.9").2.2.2.2 (by decide)).1 (by decide)

/-- C10: when the first comma-separated entry splits on the dash into
three or more parts, the code returns the first part uppercased, not the
region subtag. -/
theorem detectCountry_multipart (s : String)
    (h : 3 ≤ (jsSplit ((jsSplit s ',').headD "") '-').length) :
    detectCountry (some s) =
      jsToUpper ((jsSplit ((jsSplit s ',').headD "") '-').headD "") := by
  have hs : s ≠ "" := by
    intro he
    subst he
    exact absurd h (by decide)
  have h2 : (jsSplit ((jsSplit s ',').headD "") '-').length ≠ 2 := by omega
  simp at h2
  simp [detectCountry, hs, h2]

/-- C10 witness: zh-Hant-TW classifies as ZH, the first part uppercased. -/
theorem detectCountry_multipart_witness :
    detectCountry (some "zh-Hant-TW") =
      jsToUpper ((jsSplit ((jsSplit "zh-Hant-TW" ',').headD "") '-').headD "") :=
  detectCountry_multipart "zh-Hant-TW" (by decide)

/-- C6 counterexample: a store error during the hit-count increment is
not caught and logged — the discarded update promise leaves the failure
unhandled, contradicting the claim that either side effect failure is
caught and logged as a warning. -/
theorem redirect_side_effect_counterexample :
    (dispatchSideEffects (.error "store unavailable") (.ok ())).incrementOutcome =
      .failureUnhandled
    ∧ (dispatchSideEffects (.error "store unavailable") (.ok ())).incrementOutcome ≠
        .failureCaughtAndLogged := by
  decide

/-- C6 amended: the response already sent stays a 302 whatever the side
effects do; a failing click-event append is caught and logged as a
warning; a failing hit-count increment is left unhandled (its promise is
discarded with no catch), so it is not caught and logged. -/
theorem redirect_side_effect_handling (e : String) (incR appR : StoreResult) :
    (dispatchSideEffects incR appR).responseStatus = 302
    ∧ (dispatchSideEffects incR (.error e)).clickLogOutcome = .failureCaughtAndLogged
    ∧ (dispatchSideEffects incR (.ok ())).clickLogOutcome = .completed
    ∧ (dispatchSideEffects (.error e) appR).incrementOutcome = .failureUnhandled
    ∧ (dispatchSideEffects (.error e) appR).incrementOutcome ≠ .failureCaughtAndLogged := by
  cases incR <;> cases appR <;> simp [dispatchSideEffects, logClickEvent]

/-- C3 counterexample: a shortCode that resolves to no stored link makes
the summary route answer 500 (the generic error reaches the Express
default error handler), not 404. -/
theorem analysis_summary_counterexample :
    analysisStatus (analysisSummaryRoute [] (fun _ => []) "nosuchcode" none none) = 500
    ∧ (500 : Nat) ≠ 404 := by
  decide

/-- C3 amended: for every store and shortCode whose trimmed lowercasing
matches no stored link, the summary route fails with the generic
not-found error message and surfaces it as HTTP 500 through the error
logger and the Express default handler. -/
theorem analysis_summary_unresolved_is_500 (links : List Link)
    (eventsOf : String → List ClickEvent) (shortId : String)
    (fromD toD : Option Int)
    (h : firestoreQuery links (jsToLower (jsTrim shortId)) = none) :
    analysisSummaryRoute links eventsOf shortId fromD toD =
      .errorStatus 500 ("Link with shortCode " ++ jsToLower (jsTrim shortId) ++ " not found")
    ∧ analysisStatus (analysisSummaryRoute links eventsOf shortId fromD toD) = 500 := by
  simp [analysisSummaryRoute, generateUrlAnalysis, h, analysisStatus]

/-- C3 witness: the 500 outcome at a concrete unresolved code. -/
theorem analysis_summary_unresolved_is_500_witness :
    analysisSummaryRoute [] (fun _ => []) "nosuchcode" none none =
      .errorStatus 500 "Link with shortCode nosuchcode not found" := by
  have h := analysis_summary_unresolved_is_500 [] (fun _ => []) "nosuchcode" none none
    (by decide)
  rw [h.1]
  decide

/-- C2 counterexample: a window of 200 to 300 lies strictly between the
click events at times 100 and 400 of a link whose persisted hitCount is
5, so the inclusive filter excludes every event; the summary
then reports totalClicks = 5, not 0, because the event-count expression
falls back to the hit count whenever the filtered count is zero. -/
theorem summarize_window_counterexample :
    totalClicksOf (generateUrlAnalysis [analyticsLink] analyticsEvents "abc"
      (some 200) (some 300)) = some 5
    ∧ (5 : Nat) ≠ 0 := by
  decide

/-- C2 amended: when both bounds are given and every event of the link
falls strictly outside the inclusive window, the summary has empty
breakdowns and null first and last clicks, and totalClicks equals the
persisted hitCount of the link (0 exactly when the hit count is 0). -/
theorem summarize_excluding_window (links : List Link)
    (eventsOf : String → List ClickEvent) (shortId : String) (f g : Int)
    (link : Link)
    (hlink : firestoreQuery links (jsToLower (jsTrim shortId)) = some link)
    (hexcl : ∀ e ∈ eventsOf link.id, ∀ t : Int, e.timestamp = some t →
      t < f ∨ g < t) :
    generateUrlAnalysis links eventsOf shortId (some f) (some g) =
      .ok { urlId := link.id, shortCode := link.shortCode,
            longUrl := link.longUrl, totalClicks := link.hitCount,
            filteredPeriod := true, firstClick := none, lastClick := none,
            countries := [], devices := [], sources := [] } := by
  have hfilter : filterByWindow (eventsOf link.id) (some f) (some g) = [] := by
    simp only [filterByWindow]
    rw [List.filter_eq_nil_iff]
    intro e he
    cases hts : e.timestamp with
    | none => simp [hts]
    | some t =>
      have hout := hexcl e he t hts
      simp [hts]
      omega
  simp [generateUrlAnalysis, hlink, hfilter, countBy]

/-- C2 witness: the amended statement at the concrete link with
hitCount 5 and one event at time 100, window 200 to 300. -/
theorem summarize_excluding_window_witness :
    generateUrlAnalysis [analyticsLink] analyticsEvents "abc"
      (some 200) (some 300) =
      .ok { urlId := "L1", shortCode := "abc", longUrl := "https://example.com",
            totalClicks := 5, filteredPeriod := true, firstClick := none,
            lastClick := none, countries := [], devices := [], sources := [] } := by
  have hexcl : ∀ e ∈ analyticsEvents analyticsLink.id, ∀ t : Int,
      e.timestamp = some t → t < 200 ∨ 300 < t := by
    intro e he t ht
    simp [analyticsEvents, analyticsLink] at he
    rcases he with he | he <;> subst he <;> simp at ht <;> omega
  have h := summarize_excluding_window [analyticsLink] analyticsEvents "abc"
    200 300 analyticsLink (by decide) hexcl
  rw [h]
  rfl

/-- C7: a link with zero recorded click events and positive persisted
hitCount N summarizes, with no bounds, to totalClicks = N. -/
theorem summarize_hitcount_fallback (links : List Link)
    (eventsOf : String → List ClickEvent) (shortId : String) (link : Link)
    (hlink : firestoreQuery links (jsToLower (jsTrim shortId)) = some link)
    (hev : eventsOf link.id = []) (_hpos : 0 < link.hitCount) :
    totalClicksOf (generateUrlAnalysis links eventsOf shortId none none) =
      some link.hitCount := by
  simp [generateUrlAnalysis, hlink, hev, filterByWindow, totalClicksOf]

/-- C7 witness: the legacy link with hitCount 7 and no events summarizes
to totalClicks = 7. -/
theorem summarize_hitcount_fallback_witness :
    totalClicksOf (generateUrlAnalysis [legacyLink] (fun _ => []) "leg42x"
      none none) = some 7 := by
  have h := summarize_hitcount_fallback [legacyLink] (fun _ => []) "leg42x"
    legacyLink (by decide) (by decide) (by decide)
  rw [h]
  decide

/-- C1 counterexample: with raw code " aBc " (whitespace around a
mixed-case code) against an empty store, the second store read uses the
trimmed code aBc, not the unmodified raw string — refuting the claim that
the retry queries the unmodified rawCode. -/
theorem resolve_second_query_counterexample :
    resolve [] " aBc " = (.NotFound, ["abc", "aBc"])
    ∧ (" aBc " : String) ≠ "aBc" := by
  decide

/-- C1 amended: resolve trims then lowercases the raw code; an empty
normalized code is NotFound with no store read; otherwise the first read
queries the normalized code, a hit deciding the result (inactive matches
give the same NotFound as a miss, active matches give Found with the
longUrl); on a miss a second read is issued exactly when the trimmed raw
code differs from the normalized code, and it queries the trimmed — not
the unmodified — raw code; at most two store reads happen. -/
theorem resolve_lookup_policy (links : List Link) (raw : String) :
    (jsToLower (jsTrim raw) = "" → resolve links raw = (.NotFound, []))
    ∧ (resolve links raw).2.length ≤ 2
    ∧ (∀ l : Link, jsToLower (jsTrim raw) ≠ "" →
        firestoreQuery links (jsToLower (jsTrim raw)) = some l →
        resolve links raw = (linkDecision l, [jsToLower (jsTrim raw)]))
    ∧ (jsToLower (jsTrim raw) ≠ "" →
        firestoreQuery links (jsToLower (jsTrim raw)) = none →
        jsTrim raw = jsToLower (jsTrim raw) →
        resolve links raw = (.NotFound, [jsToLower (jsTrim raw)]))
    ∧ (jsToLower (jsTrim raw) ≠ "" →
        firestoreQuery links (jsToLower (jsTrim raw)) = none →
        jsTrim raw ≠ jsToLower (jsTrim raw) →
        (resolve links raw).2 = [jsToLower (jsTrim raw), jsTrim raw]
        ∧ (resolve links raw).1 =
            (match firestoreQuery links (jsTrim raw) with
             | none => .NotFound
             | some l => linkDecision l))
    ∧ (∀ l : Link, l.isActive = false → linkDecision l = .NotFound)
    ∧ (∀ l : Link, l.isActive = true → linkDecision l = .Found l.longUrl) := by
  refine ⟨fun h0 => by simp [resolve, h0], ?_, ?_, ?_, ?_, ?_, ?_⟩
  · by_cases h0 : jsToLower (jsTrim raw) = ""
    · simp [resolve, h0]
    · cases hq : firestoreQuery links (jsToLower (jsTrim raw)) with
      | some l => simp [resolve, h0, hq]
      | none =>
        by_cases h1 : jsTrim raw = jsToLower (jsTrim raw)
        · simp [resolve, h0, hq, eq_true h1]
        · cases hq2 : firestoreQuery links (jsTrim raw) with
          | none => simp [resolve, h0, hq, h1, hq2]
          | some l => simp [resolve, h0, hq, h1, hq2]
  · intro l h0 hq
    simp [resolve, h0, hq]
  · intro h0 hq h1
    simp [resolve, h0, hq, eq_true h1]
  · intro h0 hq h1
    cases hq2 : firestoreQuery links (jsTrim raw) with
    | none => simp [resolve, h0, hq, h1, hq2]
    | some l => simp [resolve, h0, hq, h1, hq2]
  · intro l hl
    simp [linkDecision, hl]
  · intro l hl
    simp [linkDecision, hl]

/-- C1 witness: the second-read clause instantiated at the raw code
" aBc " and the empty store. -/
theorem resolve_lookup_policy_witness :
    (resolve [] " aBc ").2 = ["abc", "aBc"] :=
  ((resolve_lookup_policy [] " aBc ").2.2.2.2.1 (by decide) (by decide)
    (by decide)).1

/-- A draw of len characters has length len. -/
theorem generateShortCode_length (rnd : Nat → Nat) (pos len : Nat) :
    (generateShortCode rnd pos len).length = len := by
  simp [generateShortCode, String.length]

/-- Reading the alphabet at any index below 36 lands inside the
alphabet. -/
theorem codeChars_getD_mem : ∀ i : Nat, i < 36 → codeChars[i]?.getD 'a' ∈ codeChars := by
  decide

/-- Every character of a draw comes from the alphabet. -/
theorem generateShortCode_chars (rnd : Nat → Nat) (pos len : Nat) :
    ∀ c ∈ (generateShortCode rnd pos len).toList, c ∈ codeChars := by
  intro c hc
  simp [generateShortCode] at hc
  obtain ⟨i, _, rfl⟩ := hc
  exact codeChars_getD_mem _ (Nat.mod_lt _ (by decide))

/-- When the loop exhausts all its fuel (every attempt collided), the
drawn lengths follow expectedTrace and the returned code is the fallback
draw, taken at the final length + 2 after drawSum draws. -/
theorem generateUniqueShortCodeAux_full (links : List Link) (rnd : Nat → Nat) :
    ∀ fuel len pos,
      ((generateUniqueShortCodeAux links rnd fuel len pos).2).length = fuel + 1 →
      (generateUniqueShortCodeAux links rnd fuel len pos).2 = expectedTrace fuel len
      ∧ (generateUniqueShortCodeAux links rnd fuel len pos).1
          = generateShortCode rnd (pos + drawSum fuel len) (finalLen fuel len + 2) := by
  intro fuel
  induction fuel with
  | zero =>
    intro len pos _
    exact ⟨rfl, by simp [generateUniqueShortCodeAux, drawSum, finalLen]⟩
  | succ fuel ih =>
    intro len pos h
    cases hq : firestoreQuery links (generateShortCode rnd pos len) with
    | none => simp [generateUniqueShortCodeAux, hq] at h
    | some l =>
      have h' : ((generateUniqueShortCodeAux links rnd fuel
          (if fuel ≤ 2 then len + 1 else len) (pos + len)).2).length = fuel + 1 := by
        simp [generateUniqueShortCodeAux, hq] at h
        omega
      obtain ⟨ht, hc⟩ := ih (if fuel ≤ 2 then len + 1 else len) (pos + len) h'
      refine ⟨?_, ?_⟩
      · simp [generateUniqueShortCodeAux, hq, expectedTrace, ht]
      · simp [generateUniqueShortCodeAux, hq, hc, drawSum, finalLen, Nat.add_assoc]

/-- The code the loop returns is always some draw, at a length at least
the starting length. -/
theorem generateUniqueShortCodeAux_shape (links : List Link) (rnd : Nat → Nat) :
    ∀ fuel len pos, ∃ p l, len ≤ l ∧
      (generateUniqueShortCodeAux links rnd fuel len pos).1 = generateShortCode rnd p l := by
  intro fuel
  induction fuel with
  | zero => intro len pos; exact ⟨pos, len + 2, by omega, rfl⟩
  | succ fuel ih =>
    intro len pos
    cases hq : firestoreQuery links (generateShortCode rnd pos len) with
    | none => exact ⟨pos, len, le_refl _, by simp [generateUniqueShortCodeAux, hq]⟩
    | some l =>
      obtain ⟨p, l', hl, he⟩ := ih (if fuel ≤ 2 then len + 1 else len) (pos + len)
      have hle : len ≤ l' := by
        refine le_trans ?_ hl
        split <;> omega
      exact ⟨p, l', hle, by simp [generateUniqueShortCodeAux, hq, he]⟩

/-- Unless every attempt collided (which the length of the trace
detects), the returned code was just checked against the store and was
absent. -/
theorem generateUniqueShortCodeAux_checked (links : List Link) (rnd : Nat → Nat) :
    ∀ fuel len pos,
      ((generateUniqueShortCodeAux links rnd fuel len pos).2).length ≤ fuel →
      firestoreQuery links (generateUniqueShortCodeAux links rnd fuel len pos).1 = none := by
  intro fuel
  induction fuel with
  | zero =>
    intro len pos h
    simp [generateUniqueShortCodeAux] at h
  | succ fuel ih =>
    intro len pos h
    cases hq : firestoreQuery links (generateShortCode rnd pos len) with
    | none => simp [generateUniqueShortCodeAux, hq]
    | some l =>
      have h' : ((generateUniqueShortCodeAux links rnd fuel
          (if fuel ≤ 2 then len + 1 else len) (pos + len)).2).length ≤ fuel := by
        simp [generateUniqueShortCodeAux, hq] at h
        omega
      have hdone := ih (if fuel ≤ 2 then len + 1 else len) (pos + len) h'
      simpa [generateUniqueShortCodeAux, hq] using hdone

/-- C4 counterexample: against a store colliding with every draw of the
all-a random stream, the ten attempts draw lengths 6 eight times then 7
and 8 (not one character longer on each of the last three attempts), and
the fallback draw has 11 characters, not candidateLength + 2 = 8. -/
theorem allocate_retry_counterexample :
    shortCodeLengthTrace collidingStore rndZero 6 = [6, 6, 6, 6, 6, 6, 6, 6, 7, 8, 11]
    ∧ (generateUniqueShortCode collidingStore rndZero 6).length = 11
    ∧ (11 : Nat) ≠ 8 := by
  decide

/-- C4 amended: when all ten attempts collide, the drawn lengths are
candidateLength for the first eight attempts and candidateLength + 1 and
+ 2 for the last two (the increment lands after the draw on each of the
last three attempts), and the fallback is a single unconditional draw at
the final length + 2 = candidateLength + 5, that is 11 characters for the
default length 6. -/
theorem allocate_all_collisions_trace (links : List Link) (rnd : Nat → Nat)
    (h : (shortCodeLengthTrace links rnd 6).length = 11) :
    shortCodeLengthTrace links rnd 6 = [6, 6, 6, 6, 6, 6, 6, 6, 7, 8, 11]
    ∧ generateUniqueShortCode links rnd 6 = generateShortCode rnd 63 11 := by
  obtain ⟨ht, hc⟩ := generateUniqueShortCodeAux_full links rnd 10 6 0 h
  exact ⟨ht.trans (by decide), hc⟩

/-- C4 witness: the all-collisions trace at the colliding store. -/
theorem allocate_all_collisions_trace_witness :
    generateUniqueShortCode collidingStore rndZero 6 =
      generateShortCode rndZero 63 11 :=
  (allocate_all_collisions_trace collidingStore rndZero (by decide)).2

/-- C5 counterexample: when the store also holds the fallback candidate,
the fallback code is returned even though a prior Link with that exact
shortCode is present — the fallback is never checked against the store. -/
theorem allocate_uniqueness_counterexample :
    generateUniqueShortCode collidingStoreWithFallback rndZero 6 = "aaaaaaaaaaa"
    ∧ (firestoreQuery collidingStoreWithFallback "aaaaaaaaaaa").isSome = true := by
  decide

/-- C5 amended: every returned code has length at least 6 and draws only
from the a-z0-9 alphabet; and whenever the code comes from one of the ten
checked attempts (not the fallback, i.e. the trace stayed within ten
draws), the store holds no prior Link with that exact shortCode. -/
theorem allocate_code_shape (links : List Link) (rnd : Nat → Nat) :
    6 ≤ (generateUniqueShortCode links rnd 6).length
    ∧ (∀ c ∈ (generateUniqueShortCode links rnd 6).toList, c ∈ codeChars)
    ∧ ((shortCodeLengthTrace links rnd 6).length ≤ 10 →
        firestoreQuery links (generateUniqueShortCode links rnd 6) = none) := by
  obtain ⟨p, l, hl, he⟩ := generateUniqueShortCodeAux_shape links rnd 10 6 0
  refine ⟨?_, ?_, fun h => generateUniqueShortCodeAux_checked links rnd 10 6 0 h⟩
  · rw [generateUniqueShortCode, he, generateShortCode_length]
    exact hl
  · rw [generateUniqueShortCode, he]
    exact generateShortCode_chars rnd p l

/-- C5 witness: with an empty store the first attempt succeeds and the
returned code is absent from the store. -/
theorem allocate_code_shape_witness :
    firestoreQuery [] (generateUniqueShortCode [] rndZero 6) = none :=
  (allocate_code_shape [] rndZero).2.2 (by decide)

end UrlShortener
